import Mathlib

/-!
Verification of the OpenKanban agent-orchestration core.

This file shallowly embeds the Go sources of the repository
(`internal/agent/agent.go`, `internal/ui/model.go`, and the documented
environment sanitizer of `docs/AGENT_INTEGRATION.md`) as executable Lean
definitions, and proves or refutes the specification claims about them.

Strings are modelled as `List Char`; Go byte strings in the relevant code
paths are ASCII or fixed UTF-8 glyph literals, for which rune-level and
byte-level substring matching agree.  Time is modelled as `Int`
nanoseconds (Go `time.Duration` / `time.Time` differences).  The status
cache's read-write mutex only serialises accesses; the embedding is the
single-threaded semantics of the cache operations.
-/

namespace OpenKanban

abbrev Str := List Char

def strC (s : String) : Str := s.toList

/-- `board.AgentStatus` (agent.go): None, Idle, Working, Waiting, Completed, Error. -/
inductive AgentStatus where
  | none
  | idle
  | working
  | waiting
  | completed
  | error
deriving DecidableEq, Repr

/-- `board.TicketStatus`: the column statuses used by the compiled sources
(`StatusBacklog`, `StatusInProgress`, `StatusDone`). -/
inductive TicketStatus where
  | backlog
  | inProgress
  | done
deriving DecidableEq, Repr

/-- `cachedStatus` (agent.go): a classification plus its capture timestamp
(nanoseconds). -/
structure CachedStatus where
  status : AgentStatus
  timestamp : Int
deriving DecidableEq, Repr

/-- `StatusDetector` (agent.go).  The cache is modelled as a partial map from
session name to cached entry; `cacheExpiration` is in nanoseconds. -/
structure StatusDetector where
  statusCache : Str → Option CachedStatus
  cacheExpiration : Int
  statusDirs : List Str

/-- `NewStatusDetector` (agent.go): empty cache, 500 ms expiry, the two
standard status directories under the caller's home directory. -/
def NewStatusDetector (homeDir : Str) : StatusDetector where
  statusCache := fun _ => Option.none
  cacheExpiration := 500000000
  statusDirs :=
    [homeDir ++ strC "/.cache/claude-status",
     homeDir ++ strC "/.cache/openkanban-status"]

/-- Go `unicode.IsSpace` restricted to the code points it recognises in
Latin-1 (the ones `strings.TrimSpace` strips). -/
def goIsSpace (c : Char) : Bool :=
  c = ' ' || c = '\t' || c = '\n' || c = Char.ofNat 11 || c = Char.ofNat 12 ||
  c = '\r' || c = Char.ofNat 133 || c = Char.ofNat 160

/-- Go `strings.TrimSpace`. -/
def trimSpace (s : Str) : Str :=
  ((s.dropWhile goIsSpace).reverse.dropWhile goIsSpace).reverse

/-- Go `strings.ToLower` (the inputs in this file are cased only in ASCII,
where `Char.toLower` agrees with Go). -/
def toLowerL (s : Str) : Str := s.map Char.toLower

/-- Go `strings.ContainsAny(s, chars)`: some code point of `chars` occurs in
`s`. -/
def containsAnyChar (s chars : Str) : Bool :=
  chars.any (fun c => s.contains c)

/-- Go `strings.Contains(s, sub)`: `sub` is a contiguous substring of `s`. -/
def goContains : Str → Str → Bool
  | [], sub => sub.isEmpty
  | c :: t, sub => List.isPrefixOf sub (c :: t) || goContains t sub

/-- Go `filepath.Join(dir, file)` for the clean relative names used here. -/
def pathJoin (dir file : Str) : Str := dir ++ '/' :: file

/-- The `switch statusStr` of `readStatusFile` (agent.go): token → status,
unrecognised tokens leave the status at `None`. -/
def parseStatusToken (t : Str) : AgentStatus :=
  if t = strC "working" then AgentStatus.working
  else if t = strC "done" || t = strC "idle" then AgentStatus.idle
  else if t = strC "waiting" || t = strC "permission" then AgentStatus.waiting
  else if t = strC "error" then AgentStatus.error
  else if t = strC "completed" then AgentStatus.completed
  else AgentStatus.none

/-- The `for _, dir := range d.statusDirs` loop of `readStatusFile`
(agent.go): read `dir/<sess>.status` from each directory in order; a file
that cannot be read, or whose trimmed content is not a recognised token, is
skipped; the first recognised token wins.  `fs` is the file system: path →
optional content. -/
def statusFromDirs : List Str → (Str → Option Str) → Str → AgentStatus
  | [], _, _ => AgentStatus.none
  | dir :: rest, fs, sess =>
    match fs (pathJoin dir (sess ++ strC ".status")) with
    | Option.none => statusFromDirs rest fs sess
    | Option.some content =>
      let s := parseStatusToken (trimSpace content)
      if s ≠ AgentStatus.none then s else statusFromDirs rest fs sess

/-- The cache-hit test of `readStatusFile` (agent.go):
`exists && time.Since(cached.timestamp) < d.cacheExpiration`. -/
def cacheFresh (d : StatusDetector) (now : Int) (sess : Str) : Bool :=
  match d.statusCache sess with
  | Option.some c => now - c.timestamp < d.cacheExpiration
  | Option.none => false

/-- The cache-miss tail of `readStatusFile` (agent.go): scan the status
directories, store the result (with the current time) in the cache, return
it. -/
def freshRead (d : StatusDetector) (now : Int) (fs : Str → Option Str)
    (sess : Str) : AgentStatus × StatusDetector :=
  let s := statusFromDirs d.statusDirs fs sess
  (s, { d with statusCache := fun k =>
          if k = sess then Option.some { status := s, timestamp := now }
          else d.statusCache k })

/-- `(*StatusDetector).readStatusFile` (agent.go): empty session → `None`;
fresh cache entry → cached status; otherwise a fresh directory scan whose
result is written back to the cache. -/
def readStatusFile (d : StatusDetector) (now : Int) (fs : Str → Option Str)
    (sess : Str) : AgentStatus × StatusDetector :=
  if sess = [] then (AgentStatus.none, d)
  else
    match d.statusCache sess with
    | Option.some c =>
      if now - c.timestamp < d.cacheExpiration then (c.status, d)
      else freshRead d now fs sess
    | Option.none => freshRead d now fs sess

/-- `workingIndicators` (agent.go, `analyzeTerminalContent`). -/
def workingIndicators : List Str :=
  [strC "⠋", strC "⠙", strC "⠹", strC "⠸", strC "⠼", strC "⠴", strC "⠦",
   strC "⠧", strC "⠇", strC "⠏",
   strC "◐", strC "◓", strC "◑", strC "◒",
   strC "▁", strC "▂", strC "▃", strC "▄", strC "▅", strC "▆", strC "▇",
   strC "█",
   strC "...",
   strC "Thinking", strC "Writing", strC "Reading", strC "Analyzing",
   strC "Processing", strC "Working", strC "Loading", strC "Searching",
   strC "Generating", strC "Executing", strC "Running"]

/-- `waitingIndicators` (agent.go, `analyzeTerminalContent`). -/
def waitingIndicators : List Str :=
  [strC "[Y/n]", strC "[y/N]", strC "(y/n)",
   strC "Allow?", strC "Approve?", strC "Confirm?",
   strC "Press", strC "Enter to",
   strC "permission"]

/-- `idlePrompts` (agent.go, `analyzeTerminalContent`). -/
def idlePrompts : List Str :=
  [strC "> ", strC "$ ", strC "❯ ", strC "→ ", strC ">> ", strC "% ",
   strC "claude>", strC "opencode>", strC "aider>",
   strC "What would you like",
   strC "How can I help",
   strC "Enter your"]

/-- The last ~10 rows of the snapshot (agent.go, `analyzeTerminalContent`):
if there are more than 10 lines, rejoin the final 10, else the whole
content. -/
def recentOf (content : Str) : Str :=
  let lines := content.splitOn '\n'
  if lines.length > 10 then
    List.intercalate (strC "\n") (lines.drop (lines.length - 10))
  else content

/-- The last-non-empty-line loop of `analyzeTerminalContent` (agent.go):
walk the lines backwards, trim each, take the first non-empty one (default
empty). -/
def lastNonEmptyLine (lines : List Str) : Str :=
  (((lines.reverse).map trimSpace).find? (fun l => !l.isEmpty)).getD []

/-- The working-indicator scan of `analyzeTerminalContent` (agent.go):
`strings.Contains(recentContent, indicator)`. -/
def hasWorkingIndicator (s : Str) : Bool :=
  workingIndicators.any (fun ind => goContains s ind)

/-- The waiting-indicator scan of `analyzeTerminalContent` (agent.go):
`strings.ContainsAny(recentContent, indicator) ||
strings.Contains(strings.ToLower(recentContent), strings.ToLower(indicator))`.
Note that `ContainsAny` fires when the snapshot shares ANY single character
with the indicator. -/
def waitingCheckFires (s : Str) : Bool :=
  waitingIndicators.any (fun ind =>
    containsAnyChar s ind || goContains (toLowerL s) (toLowerL ind))

/-- The idle-prompt scan of `analyzeTerminalContent` (agent.go):
`strings.HasSuffix(lastLine, prompt) ||
strings.Contains(strings.ToLower(lastLine), strings.ToLower(prompt))`. -/
def idlePromptFires (lastLine : Str) : Bool :=
  idlePrompts.any (fun p =>
    p.isSuffixOf lastLine || goContains (toLowerL lastLine) (toLowerL p))

/-- `(*StatusDetector).analyzeTerminalContent` (agent.go). -/
def analyzeTerminalContent (content : Str) : AgentStatus :=
  if content = [] then AgentStatus.idle
  else
    let recentContent := recentOf content
    if hasWorkingIndicator recentContent then AgentStatus.working
    else if waitingCheckFires recentContent then AgentStatus.waiting
    else
      let lastLine := lastNonEmptyLine (content.splitOn '\n')
      if idlePromptFires lastLine then AgentStatus.idle
      else AgentStatus.working

/-- `(*StatusDetector).DetectStatus` (agent.go): not running → `None`;
else the status-file result if it is not `None`; else the terminal
heuristic.  The returned detector carries the cache update made by
`readStatusFile`. -/
def DetectStatus (d : StatusDetector) (sessionName terminalContent : Str)
    (processRunning : Bool) (now : Int) (fs : Str → Option Str) :
    AgentStatus × StatusDetector :=
  if !processRunning then (AgentStatus.none, d)
  else
    let r := readStatusFile d now fs sessionName
    if r.fst ≠ AgentStatus.none then r
    else (analyzeTerminalContent terminalContent, r.snd)

/-- C1: the classifier returns `None` whenever the pane is not running,
for every session name, terminal snapshot, cache state and status-file
state. -/
theorem detectStatus_not_running_none
    (d : StatusDetector) (sess content : Str) (now : Int)
    (fs : Str → Option Str) :
    (DetectStatus d sess content false now fs).fst = AgentStatus.none := by
  simp [DetectStatus]

/-- With a non-empty session name and no fresh cache entry, `readStatusFile`
is exactly the fresh directory scan plus cache write. -/
theorem readStatusFile_stale (d : StatusDetector) (now : Int)
    (fs : Str → Option Str) (sess : Str)
    (hs : sess ≠ []) (hc : cacheFresh d now sess = false) :
    readStatusFile d now fs sess = freshRead d now fs sess := by
  unfold readStatusFile
  unfold cacheFresh at hc
  rw [if_neg hs]
  cases h : d.statusCache sess with
  | none => rfl
  | some c =>
    rw [h] at hc
    simp only [decide_eq_false_iff_not] at hc
    simp [hc]

/-- C2: for a running pane with a non-empty session and no fresh cache
entry, if the scan of the well-known status-file locations yields a
recognised token, the classifier returns its mapping
(working→Working, done/idle→Idle, waiting/permission→Waiting, error→Error,
completed→Completed, first recognised token wins — `statusFromDirs`
consumes the directories in order), and the screen heuristic is not
consulted: the result is the same for every terminal snapshot `content`. -/
theorem detectStatus_status_file_wins :
    (parseStatusToken (strC "working") = AgentStatus.working
      ∧ parseStatusToken (strC "done") = AgentStatus.idle
      ∧ parseStatusToken (strC "idle") = AgentStatus.idle
      ∧ parseStatusToken (strC "waiting") = AgentStatus.waiting
      ∧ parseStatusToken (strC "permission") = AgentStatus.waiting
      ∧ parseStatusToken (strC "error") = AgentStatus.error
      ∧ parseStatusToken (strC "completed") = AgentStatus.completed)
    ∧ ∀ (d : StatusDetector) (now : Int) (fs : Str → Option Str)
        (sess content : Str) (s : AgentStatus),
        sess ≠ [] →
        cacheFresh d now sess = false →
        statusFromDirs d.statusDirs fs sess = s →
        s ≠ AgentStatus.none →
        (DetectStatus d sess content true now fs).fst = s := by
  refine ⟨by decide, ?_⟩
  intro d now fs sess content s hs hc hscan hne
  unfold DetectStatus
  rw [readStatusFile_stale d now fs sess hs hc]
  unfold freshRead
  simp [hscan, hne]

/-- Witness for C2: a running pane whose screen snapshot (`Thinking`) would
heuristically classify as Working, but whose first status file contains
`waiting\n`: the classifier returns Waiting. -/
theorem detectStatus_status_file_wins_witness :
    analyzeTerminalContent (strC "Thinking") = AgentStatus.working
    ∧ (DetectStatus (NewStatusDetector (strC "/home/u")) (strC "sess1")
        (strC "Thinking") true 0
        (fun p =>
          if p = pathJoin (strC "/home/u/.cache/claude-status")
                (strC "sess1" ++ strC ".status")
          then Option.some (strC "waiting\n") else Option.none)).fst
      = AgentStatus.waiting :=
  ⟨by decide,
   detectStatus_status_file_wins.2 (NewStatusDetector (strC "/home/u")) 0 _
     (strC "sess1") (strC "Thinking") AgentStatus.waiting
     (by decide) (by decide) (by decide) (by decide)⟩

/-- C3 (code bug): a running pane with no status file whose snapshot's last
non-empty row is `claude> ` — which matches the idle prompt `claude>` and
contains no working indicator and no waiting indicator as a substring — is
classified Waiting, not Idle.  `strings.ContainsAny(recentContent, "Allow?")`
is a character-set test and fires on the single character `l` of `claude`.
The conjuncts below: the claim's hypotheses hold at this input (no working
indicator, no waiting indicator occurs as a case-insensitive substring, the
idle-prompt check matches the last line), yet the classifier answers
Waiting. -/
theorem analyze_claude_prompt_returns_waiting :
    hasWorkingIndicator (recentOf (strC "claude> ")) = false
    ∧ waitingIndicators.all
        (fun ind => !(goContains (toLowerL (strC "claude> ")) (toLowerL ind)))
      = true
    ∧ idlePromptFires (lastNonEmptyLine ((strC "claude> ").splitOn '\n'))
      = true
    ∧ analyzeTerminalContent (strC "claude> ") = AgentStatus.waiting
    ∧ (DetectStatus (NewStatusDetector (strC "/home/u")) (strC "sess1")
        (strC "claude> ") true 0 (fun _ => Option.none)).fst
      = AgentStatus.waiting
    ∧ AgentStatus.waiting ≠ AgentStatus.idle := by
  decide

/-- Counterexample for C4: the empty snapshot satisfies the claim's
hypotheses (no working indicator, no waiting indicator, no last non-empty
line matching an idle prompt), yet the classifier returns Idle, not the
claimed conservative default Working. -/
theorem analyze_empty_snapshot_counterexample :
    hasWorkingIndicator (recentOf []) = false
    ∧ waitingCheckFires (recentOf []) = false
    ∧ idlePromptFires (lastNonEmptyLine (List.splitOn '\n' ([] : Str)))
      = false
    ∧ analyzeTerminalContent [] = AgentStatus.idle
    ∧ AgentStatus.idle ≠ AgentStatus.working := by
  decide

/-- C4 (amended): the empty snapshot is classified Idle; every NON-empty
snapshot on which the working-indicator check, the waiting-indicator check
(which also fires when the snapshot merely shares a single character with a
waiting indicator) and the idle-prompt check on the last non-empty line all
fail is classified Working, the conservative default. -/
theorem analyze_default_working :
    analyzeTerminalContent [] = AgentStatus.idle
    ∧ ∀ content : Str, content ≠ [] →
        hasWorkingIndicator (recentOf content) = false →
        waitingCheckFires (recentOf content) = false →
        idlePromptFires (lastNonEmptyLine (content.splitOn '\n')) = false →
        analyzeTerminalContent content = AgentStatus.working := by
  refine ⟨by decide, ?_⟩
  intro content h1 h2 h3 h4
  unfold analyzeTerminalContent
  simp [h1, h2, h3, h4]

/-- Witness for C4: the snapshot `qqq` fails all three checks and is
classified Working. -/
theorem analyze_default_working_witness :
    analyzeTerminalContent (strC "qqq") = AgentStatus.working :=
  analyze_default_working.2 (strC "qqq") (by decide) (by decide) (by decide)
    (by decide)

/-- C5: for a cached entry, a read strictly younger than the expiry window
returns the cached status and leaves the detector unchanged — the equation's
right-hand side does not mention the file system `fs`, so the status files
are not re-read — while a read whose age is exactly the expiry performs the
fresh directory scan (`freshRead`), whose result is recorded in the cache
with the current timestamp. -/
theorem readStatusFile_cache_expiry
    (d : StatusDetector) (now : Int) (fs : Str → Option Str) (sess : Str)
    (c : CachedStatus) (hs : sess ≠ [])
    (hc : d.statusCache sess = Option.some c) :
    (now - c.timestamp < d.cacheExpiration →
       readStatusFile d now fs sess = (c.status, d))
    ∧ (now - c.timestamp = d.cacheExpiration →
       readStatusFile d now fs sess = freshRead d now fs sess) := by
  constructor
  · intro h
    unfold readStatusFile
    rw [if_neg hs, hc]
    simp [h]
  · intro h
    have hnot : ¬ now - c.timestamp < d.cacheExpiration := by
      rw [h]; exact lt_irrefl _
    unfold readStatusFile
    rw [if_neg hs, hc]
    simp [hnot]

/-- Witness for C5: with an entry cached at 100 and a 500000000 ns window,
a read at 100 + 499999999 returns the cached Working without touching the
(empty) file system; a read at exactly 100 + 500000000 re-scans the
directories and finds `error`. -/
theorem readStatusFile_cache_expiry_witness :
    (readStatusFile
        { statusCache := fun k =>
            if k = strC "s" then
              Option.some { status := AgentStatus.working, timestamp := 100 }
            else Option.none,
          cacheExpiration := 500000000,
          statusDirs := [strC "d1", strC "d2"] }
        500000000 (fun _ => Option.none) (strC "s")).fst
      = AgentStatus.working
    ∧ (readStatusFile
        { statusCache := fun k =>
            if k = strC "s" then
              Option.some { status := AgentStatus.working, timestamp := 100 }
            else Option.none,
          cacheExpiration := 500000000,
          statusDirs := [strC "d1", strC "d2"] }
        500000100
        (fun p =>
          if p = pathJoin (strC "d1") (strC "s" ++ strC ".status")
          then Option.some (strC "error") else Option.none)
        (strC "s")).fst
      = AgentStatus.error := by
  constructor
  · rw [(readStatusFile_cache_expiry _ 500000000 _ (strC "s")
      { status := AgentStatus.working, timestamp := 100 }
      (by decide) (by decide)).1 (by decide)]
  · rw [(readStatusFile_cache_expiry _ 500000100 _ (strC "s")
      { status := AgentStatus.working, timestamp := 100 }
      (by decide) (by decide)).2 (by decide)]
    decide

/-- `board.Ticket` (fields used by the compiled sources: model.go and
agent.go). -/
structure Ticket where
  id : Str
  title : Str
  status : TicketStatus
  agentType : Str
  agentStatus : AgentStatus
  tmuxSession : Str
  worktreePath : Str
  branchName : Str
  baseBranch : Str
deriving DecidableEq, Repr

/-- `ui.Mode` (model.go). -/
inductive Mode where
  | normal
  | insert
  | command
  | help
  | confirm
  | createTicket
deriving DecidableEq, Repr

/-- The slice of `ui.Model` state (model.go) the verified actions touch:
the mode, the notification text, the selected ticket (the board ticket the
cursor points at — Go mutates it through a pointer, the embedding updates
this field), and whether `saveBoard` has been called by the action. -/
structure UIState where
  mode : Mode
  notification : Str
  selected : Option Ticket
  saved : Bool
deriving DecidableEq, Repr

/-- `(*Model).nextStatus` (model.go): Backlog→InProgress, InProgress→Done,
default: unchanged. -/
def nextStatus : TicketStatus → TicketStatus
  | TicketStatus.backlog => TicketStatus.inProgress
  | TicketStatus.inProgress => TicketStatus.done
  | current => current

/-- `string(status)` for the notification text (`board.TicketStatus` is a
Go string type). -/
def statusString : TicketStatus → Str
  | TicketStatus.backlog => strC "backlog"
  | TicketStatus.inProgress => strC "in_progress"
  | TicketStatus.done => strC "done"

/-- `(*Model).quickMoveTicket` (model.go), the handler of the Space key in
Normal mode: no selection → no-op; next status equal to the current one →
no-op; otherwise move the ticket, save the board and notify.
`board.MoveTicket` is modelled from the spec: the board package is not
among the sources; per the spec it sets the ticket's column status to the
given status.  `refreshColumnTickets` only rebuilds the cached column
layout and is not part of the observed state. -/
def quickMoveTicket (st : UIState) : UIState :=
  match st.selected with
  | Option.none => st
  | Option.some t =>
    let ns := nextStatus t.status
    if ns = t.status then st
    else
      { st with
        selected := Option.some { t with status := ns },
        saved := true,
        notification := strC "Moved to " ++ statusString ns }

/-- C6: with a selected ticket, Space moves Backlog to InProgress and
InProgress to Done (saving the board and notifying), and leaves a Done
ticket — and the whole UI state — unchanged: Done is terminal. -/
theorem quickMoveTicket_next (st : UIState) (t : Ticket)
    (hsel : st.selected = Option.some t) :
    (t.status = TicketStatus.backlog →
      quickMoveTicket st =
        { st with
          selected :=
            Option.some { t with status := TicketStatus.inProgress },
          saved := true,
          notification :=
            strC "Moved to " ++ statusString TicketStatus.inProgress })
    ∧ (t.status = TicketStatus.inProgress →
      quickMoveTicket st =
        { st with
          selected := Option.some { t with status := TicketStatus.done },
          saved := true,
          notification :=
            strC "Moved to " ++ statusString TicketStatus.done })
    ∧ (t.status = TicketStatus.done → quickMoveTicket st = st) := by
  refine ⟨fun h => ?_, fun h => ?_, fun h => ?_⟩ <;>
    · unfold quickMoveTicket
      rw [hsel]
      simp [nextStatus, h]

/-- Witness for C6 at concrete tickets in each column. -/
theorem quickMoveTicket_next_witness :
    quickMoveTicket
        { mode := Mode.normal, notification := [],
          selected := Option.some
            { id := strC "11111111", title := strC "a",
              status := TicketStatus.done, agentType := [],
              agentStatus := AgentStatus.none, tmuxSession := [],
              worktreePath := [], branchName := [], baseBranch := [] },
          saved := false }
      = { mode := Mode.normal, notification := [],
          selected := Option.some
            { id := strC "11111111", title := strC "a",
              status := TicketStatus.done, agentType := [],
              agentStatus := AgentStatus.none, tmuxSession := [],
              worktreePath := [], branchName := [], baseBranch := [] },
          saved := false }
    ∧ (quickMoveTicket
        { mode := Mode.normal, notification := [],
          selected := Option.some
            { id := strC "22222222", title := strC "b",
              status := TicketStatus.backlog, agentType := [],
              agentStatus := AgentStatus.none, tmuxSession := [],
              worktreePath := [], branchName := [], baseBranch := [] },
          saved := false }).selected.map Ticket.status
      = Option.some TicketStatus.inProgress :=
  ⟨(quickMoveTicket_next _ _ rfl).2.2 rfl,
   by rw [(quickMoveTicket_next _
       { id := strC "22222222", title := strC "b",
         status := TicketStatus.backlog, agentType := [],
         agentStatus := AgentStatus.none, tmuxSession := [],
         worktreePath := [], branchName := [], baseBranch := [] }
       rfl).1 rfl]
      rfl⟩

/-- `(*Manager).PollStatuses` (agent.go): for each ticket of the board map,
reassign `AgentStatus` from `GetStatus` iff the ticket's column status is
InProgress.  The map's entries are modelled as a list; `GetStatus` — whose
result depends on tmux and the file system — is abstracted as the function
parameter `getStatus`. -/
def PollStatuses (getStatus : Ticket → AgentStatus) (tickets : List Ticket) :
    List Ticket :=
  tickets.map (fun t =>
    if t.status = TicketStatus.inProgress then
      { t with agentStatus := getStatus t }
    else t)

/-- C10: a polling pass rewrites exactly the `agentStatus` of the tickets
whose column status is InProgress (all other fields intact) and returns
every Backlog or Done ticket entirely unchanged, whatever `getStatus`
would report for it. -/
theorem pollStatuses_frame (g : Ticket → AgentStatus) (ts : List Ticket)
    (i : Nat) (dflt : Ticket) (h : i < ts.length) :
    (PollStatuses g ts).getD i dflt =
      (if (ts.getD i dflt).status = TicketStatus.inProgress
       then { ts.getD i dflt with agentStatus := g (ts.getD i dflt) }
       else ts.getD i dflt) := by
  induction ts generalizing i with
  | nil => exact absurd h (Nat.not_lt_zero i)
  | cons a l ih =>
    cases i with
    | zero => simp [PollStatuses]
    | succ n =>
      have h' : n < l.length := by simpa using h
      simpa [PollStatuses] using ih n h'

/-- Witness for C10: a Done ticket with a live-looking session is returned
untouched while the InProgress ticket's agent status is reassigned. -/
theorem pollStatuses_frame_witness :
    (PollStatuses (fun _ => AgentStatus.working)
        [{ id := strC "1", title := [], status := TicketStatus.done,
           agentType := [], agentStatus := AgentStatus.idle,
           tmuxSession := strC "ok-1", worktreePath := [],
           branchName := [], baseBranch := [] },
         { id := strC "2", title := [], status := TicketStatus.inProgress,
           agentType := [], agentStatus := AgentStatus.idle,
           tmuxSession := strC "ok-2", worktreePath := [],
           branchName := [], baseBranch := [] }]).getD 0
        { id := [], title := [], status := TicketStatus.backlog,
          agentType := [], agentStatus := AgentStatus.none,
          tmuxSession := [], worktreePath := [], branchName := [],
          baseBranch := [] }
      = { id := strC "1", title := [], status := TicketStatus.done,
          agentType := [], agentStatus := AgentStatus.idle,
          tmuxSession := strC "ok-1", worktreePath := [],
          branchName := [], baseBranch := [] }
    ∧ ((PollStatuses (fun _ => AgentStatus.working)
        [{ id := strC "1", title := [], status := TicketStatus.done,
           agentType := [], agentStatus := AgentStatus.idle,
           tmuxSession := strC "ok-1", worktreePath := [],
           branchName := [], baseBranch := [] },
         { id := strC "2", title := [], status := TicketStatus.inProgress,
           agentType := [], agentStatus := AgentStatus.idle,
           tmuxSession := strC "ok-2", worktreePath := [],
           branchName := [], baseBranch := [] }]).getD 1
        { id := [], title := [], status := TicketStatus.backlog,
          agentType := [], agentStatus := AgentStatus.none,
          tmuxSession := [], worktreePath := [], branchName := [],
          baseBranch := [] }).agentStatus
      = AgentStatus.working := by
  constructor
  · rw [pollStatuses_frame _ _ 0 _ (by decide)]
    decide
  · rw [pollStatuses_frame _ _ 1 _ (by decide)]
    decide

/-- `(*Manager).SpawnAgent` (agent.go): guard chain — unknown agent type,
empty session name, empty worktree path, already-existing tmux session,
failing `tmux new-session` — then mark the ticket Idle with the agent type.
The config lookup is modelled by membership of the agent name in the
configured list, the external tmux probes by the booleans `sessionExists`
and `tmuxOk`.  The initial-prompt template rendering is omitted: the
source computes it but never lets it change the command
(`agentCmd = fmt.Sprintf("%s", agentCmd)`). -/
def SpawnAgent (agents : List Str) (sessionExists tmuxOk : Bool)
    (t : Ticket) (agentType : Str) : Except Str Ticket :=
  if !(agents.contains agentType) then
    Except.error (strC "unknown agent type: " ++ agentType)
  else if t.tmuxSession = [] then
    Except.error (strC "ticket has no tmux session name")
  else if t.worktreePath = [] then
    Except.error (strC "ticket has no worktree path")
  else if sessionExists then
    Except.error (strC "tmux session already exists: " ++ t.tmuxSession)
  else if !tmuxOk then
    Except.error (strC "failed to create tmux session")
  else
    Except.ok { t with agentType := agentType,
                       agentStatus := AgentStatus.idle }

/-- The tail of `(*Model).spawnAgent` (model.go): call
`agentMgr.SpawnAgent`; on error notify and return, on success save the
board and notify.  The mutated ticket stays on the board in both cases
(Go mutates it through a pointer). -/
def spawnFinish (st : UIState) (t : Ticket) (defaultAgent : Str)
    (agents : List Str) (sessionExists tmuxOk : Bool) : UIState :=
  match SpawnAgent agents sessionExists tmuxOk t defaultAgent with
  | Except.error e =>
    { st with selected := Option.some t,
              notification := strC "Failed to spawn agent: " ++ e }
  | Except.ok t2 =>
    { st with selected := Option.some t2, saved := true,
              notification := strC "Spawned " ++ defaultAgent
                ++ strC " agent" }

/-- `(*Model).spawnAgent` (model.go), the handler of the `s` key in Normal
mode.  Guard on the column status; assign the ticket's tmux session name
from the settings; create the worktree when the ticket has none
(`wtResult` is the `CreateWorktree` outcome, `baseBranch` the
`GetDefaultBranch` result whose error the source discards); then start the
agent.  The handler never assigns `mode`, and `saveBoard` runs only on the
success path. -/
def spawnAgent (st : UIState)
    (tmuxPfx branchPfx defaultAgent baseBranch : Str)
    (wtResult : Except Str Str) (agents : List Str)
    (sessionExists tmuxOk : Bool) : UIState :=
  match st.selected with
  | Option.none => st
  | Option.some t0 =>
    if t0.status ≠ TicketStatus.inProgress then
      { st with notification := strC "Move ticket to In Progress first" }
    else
      let t1 := { t0 with tmuxSession := tmuxPfx ++ t0.id.take 8 }
      if t1.worktreePath = [] then
        match wtResult with
        | Except.error e =>
          { st with selected := Option.some t1,
                    notification := strC "Failed to create worktree: " ++ e }
        | Except.ok path =>
          spawnFinish st
            { t1 with worktreePath := path,
                      branchName := branchPfx ++ t0.id.take 8,
                      baseBranch := baseBranch }
            defaultAgent agents sessionExists tmuxOk
      else spawnFinish st t1 defaultAgent agents sessionExists tmuxOk

/-- The concrete UI state of the C7 counterexample: a selected InProgress
ticket with no worktree and no session, in Normal mode. -/
def cexSpawnState : UIState :=
  { mode := Mode.normal, notification := [],
    selected := Option.some
      { id := strC "abcdef12-3456", title := strC "t",
        status := TicketStatus.inProgress, agentType := [],
        agentStatus := AgentStatus.none, tmuxSession := [],
        worktreePath := [], branchName := [], baseBranch := [] },
    saved := false }

/-- Counterexample for C7: after a spawn attempt whose worktree creation
fails, the UI is in Normal with a notification — but the ticket still
carries the tmux session name `ok-abcdef12` assigned at the start of the
attempt, with no tmux session in existence: the session entry on the
ticket is NOT rolled back. -/
theorem spawnAgent_session_not_rolled_back :
    (spawnAgent cexSpawnState (strC "ok-") (strC "task/") (strC "claude")
        (strC "main") (Except.error (strC "boom")) [strC "claude"]
        false true).mode = Mode.normal
    ∧ (spawnAgent cexSpawnState (strC "ok-") (strC "task/") (strC "claude")
        (strC "main") (Except.error (strC "boom")) [strC "claude"]
        false true).notification
      = strC "Failed to create worktree: boom"
    ∧ (spawnAgent cexSpawnState (strC "ok-") (strC "task/") (strC "claude")
        (strC "main") (Except.error (strC "boom")) [strC "claude"]
        false true).selected.map Ticket.tmuxSession
      = Option.some (strC "ok-abcdef12")
    ∧ strC "ok-abcdef12" ≠ [] := by
  decide

/-- C7 (amended): for every spawn attempt on a selected InProgress ticket
that fails at worktree creation (A), at agent start after a worktree was
created in this attempt (B), or at agent start with a pre-existing
worktree (C): the mode is untouched (the handler runs in Normal and stays
there), the only state changes are the failure notification and the
mutated ticket, the board is not saved, a worktree created in this attempt
is kept on the ticket (never removed) — and the tmux session name assigned
at the start of the attempt remains on the ticket, it is not rolled
back. -/
theorem spawnAgent_failure (st : UIState) (t : Ticket)
    (tmuxPfx branchPfx defaultAgent baseBranch : Str) (agents : List Str)
    (sessionExists tmuxOk : Bool)
    (hsel : st.selected = Option.some t)
    (hstat : t.status = TicketStatus.inProgress) :
    (∀ e, t.worktreePath = [] →
      spawnAgent st tmuxPfx branchPfx defaultAgent baseBranch
          (Except.error e) agents sessionExists tmuxOk
        = { st with
            selected := Option.some
              { t with tmuxSession := tmuxPfx ++ t.id.take 8 },
            notification := strC "Failed to create worktree: " ++ e })
    ∧ (∀ path e, t.worktreePath = [] →
      SpawnAgent agents sessionExists tmuxOk
          { t with tmuxSession := tmuxPfx ++ t.id.take 8,
                   worktreePath := path,
                   branchName := branchPfx ++ t.id.take 8,
                   baseBranch := baseBranch } defaultAgent
        = Except.error e →
      spawnAgent st tmuxPfx branchPfx defaultAgent baseBranch
          (Except.ok path) agents sessionExists tmuxOk
        = { st with
            selected := Option.some
              { t with tmuxSession := tmuxPfx ++ t.id.take 8,
                       worktreePath := path,
                       branchName := branchPfx ++ t.id.take 8,
                       baseBranch := baseBranch },
            notification := strC "Failed to spawn agent: " ++ e })
    ∧ (∀ wtResult e, t.worktreePath ≠ [] →
      SpawnAgent agents sessionExists tmuxOk
          { t with tmuxSession := tmuxPfx ++ t.id.take 8 } defaultAgent
        = Except.error e →
      spawnAgent st tmuxPfx branchPfx defaultAgent baseBranch
          wtResult agents sessionExists tmuxOk
        = { st with
            selected := Option.some
              { t with tmuxSession := tmuxPfx ++ t.id.take 8 },
            notification := strC "Failed to spawn agent: " ++ e }) := by
  refine ⟨fun e hwp => ?_, fun path e hwp hsp => ?_, fun wtR e hwp hsp => ?_⟩
  · unfold spawnAgent
    rw [hsel]
    simp [hstat, hwp]
  · unfold spawnAgent spawnFinish
    rw [hsel]
    rw [hstat] at hsp
    simp [hstat, hwp, hsp]
  · unfold spawnAgent spawnFinish
    rw [hsel]
    rw [hstat] at hsp
    simp [hstat, hwp, hsp]

/-- Witness for C7 at the concrete state of the counterexample (worktree
creation failing with `boom`). -/
theorem spawnAgent_failure_witness :
    spawnAgent cexSpawnState (strC "ok-") (strC "task/") (strC "claude")
        (strC "main") (Except.error (strC "boom")) [strC "claude"]
        false true
      = { cexSpawnState with
          selected := Option.some
            { id := strC "abcdef12-3456", title := strC "t",
              status := TicketStatus.inProgress, agentType := [],
              agentStatus := AgentStatus.none,
              tmuxSession := strC "ok-" ++ (strC "abcdef12-3456").take 8,
              worktreePath := [], branchName := [], baseBranch := [] },
          notification :=
            strC "Failed to create worktree: " ++ strC "boom" } :=
  (spawnAgent_failure cexSpawnState _ (strC "ok-") (strC "task/")
      (strC "claude") (strC "main") [strC "claude"] false true rfl rfl).1
    (strC "boom") rfl

/-- The child environment `(*Manager).SpawnAgent` actually builds
(agent.go lines 84-88): the parent environment verbatim, then the
configured per-agent variables appended as `k=v`; no filtering, no TERM
override.  Go's map iteration order is modelled by the list order. -/
def spawnAgentEnv (parentEnv : List Str) (agentEnv : List (Str × Str)) :
    List Str :=
  parentEnv ++ agentEnv.map (fun kv => kv.fst ++ strC "=" ++ kv.snd)

/-- The vendor-variable test of `buildCleanEnv`
(docs/AGENT_INTEGRATION.md): the key equals, or extends with `_`, one of
OPENCODE, CLAUDE, GEMINI, CODEX. -/
def vendorKey (key : Str) : Bool :=
  key = strC "OPENCODE" || List.isPrefixOf (strC "OPENCODE_") key ||
  key = strC "CLAUDE" || List.isPrefixOf (strC "CLAUDE_") key ||
  key = strC "GEMINI" || List.isPrefixOf (strC "GEMINI_") key ||
  key = strC "CODEX" || List.isPrefixOf (strC "CODEX_") key

/-- `buildCleanEnv` as documented in docs/AGENT_INTEGRATION.md
("Environment Isolation"): drop every entry whose key
(`strings.Split(e, "=")[0]`) is vendor-prefixed, then append
`TERM=xterm-256color`. -/
def buildCleanEnv (parentEnv : List Str) : List Str :=
  (parentEnv.filter (fun e => !(vendorKey ((e.splitOn '=').headD []))))
    ++ [strC "TERM=xterm-256color"]

/-- C8 (code bug): on a parent environment containing `CLAUDE_API_KEY=s`,
the environment `SpawnAgent` hands the child keeps the vendor variable and
contains no `TERM=xterm-256color` entry, while the sanitizer documented in
the repository's own docs (`buildCleanEnv`) — which the claim and the spec
describe — removes it and sets TERM. -/
theorem spawnAgent_env_not_sanitized :
    spawnAgentEnv [strC "CLAUDE_API_KEY=s", strC "PATH=/bin"] []
      = [strC "CLAUDE_API_KEY=s", strC "PATH=/bin"]
    ∧ strC "CLAUDE_API_KEY=s"
        ∈ spawnAgentEnv [strC "CLAUDE_API_KEY=s", strC "PATH=/bin"] []
    ∧ strC "TERM=xterm-256color"
        ∉ spawnAgentEnv [strC "CLAUDE_API_KEY=s", strC "PATH=/bin"] []
    ∧ buildCleanEnv [strC "CLAUDE_API_KEY=s", strC "PATH=/bin"]
      = [strC "PATH=/bin", strC "TERM=xterm-256color"] := by
  decide

/-- Go two's-complement `int64` wrap-around for `time.Duration`
arithmetic. -/
def wrap64 (x : Int) : Int :=
  (x + 9223372036854775808) % 18446744073709551616 - 9223372036854775808

/-- `(*Manager).StatusPollInterval` (agent.go), in nanoseconds
(`time.Duration`): the configured `UI.RefreshInterval` in seconds, or 5
when that is not positive. -/
def StatusPollInterval (refreshInterval : Int) : Int :=
  wrap64 ((if refreshInterval ≤ 0 then 5 else refreshInterval)
    * 1000000000)

/-- Counterexample for C9: with no valid configured interval
(`RefreshInterval = 0`) the poll interval is 5 seconds, not the claimed
default of 1 second. -/
theorem statusPollInterval_default_counterexample :
    StatusPollInterval 0 = 5000000000
    ∧ (5000000000 : Int) ≠ 1000000000 := by
  constructor
  · unfold StatusPollInterval wrap64
    norm_num
  · norm_num

/-- C9 (amended): the poll interval equals the configured interval in
seconds whenever that is positive (and small enough not to overflow a
64-bit duration), defaults to 5 seconds — not 1 — when the configured
value is not positive, and is in these cases never below 1 second. -/
theorem statusPollInterval_floor (r : Int) :
    (r ≤ 0 → StatusPollInterval r = 5000000000)
    ∧ (1 ≤ r → r ≤ 9223372036 →
        StatusPollInterval r = r * 1000000000)
    ∧ (r ≤ 9223372036 → 1000000000 ≤ StatusPollInterval r) := by
  unfold StatusPollInterval wrap64
  refine ⟨fun h => ?_, fun h1 h2 => ?_, fun h => ?_⟩
  · rw [if_pos h]
    norm_num
  · rw [if_neg (by omega)]
    rw [Int.emod_eq_of_lt (by omega) (by omega)]
    omega
  · by_cases h0 : r ≤ 0
    · rw [if_pos h0]
      norm_num
    · rw [if_neg h0]
      rw [Int.emod_eq_of_lt (by omega) (by omega)]
      omega

/-- Witness for C9 at the configured values 0 (invalid → 5 s) and 2
(used as configured → 2 s ≥ 1 s). -/
theorem statusPollInterval_floor_witness :
    StatusPollInterval 0 = 5000000000
    ∧ StatusPollInterval 2 = 2 * 1000000000
    ∧ 1000000000 ≤ StatusPollInterval 2 :=
  ⟨(statusPollInterval_floor 0).1 (by norm_num),
   (statusPollInterval_floor 2).2.1 (by norm_num) (by norm_num),
   (statusPollInterval_floor 2).2.2 (by norm_num)⟩

end OpenKanban
